import Mathlib

/-!
Shallow embedding of the weather collection / history query system.

The embedding follows the Go sources:
* `internal/models` — the data model (`WeatherResponse`, `WeatherRecord`, `S3WeatherData`);
* `internal/services` — the record mapper (`ConvertToWeatherRecord`, `ConvertToS3Data`);
* `internal/handlers` — the DynamoDB accessor (`GetWeatherHistory`);
* `cmd/weather-history-api/main.go` — the history query handler
  (`HandleRequest`, `isValidPeriod`, `sanitizeCityName`);
* `cmd/weather-lambda/main.go` — the collector handler.

Conventions: `time.Time` values are unix seconds (`Int`); `float64` fields carry `Rat`
(no floating-point arithmetic is performed anywhere in the modelled code, the values are
only copied); Go maps of strings are association lists with the zero-value lookup of Go;
fallible calls return `Except`/`Option`.
-/

namespace WeatherSys

/-- Inclusive code-point range test on characters, used by the period regex character
classes and by digit parsing. -/
def charIn (lo hi c : Char) : Bool :=
  lo.toNat ≤ c.toNat && c.toNat ≤ hi.toNat

/-! ## Data model (internal/models/weather.go) -/

/-- Coordinates of the observed city. -/
structure Coord where
  Lon : Rat
  Lat : Rat
deriving DecidableEq

/-- Main block of the provider response. -/
structure MainData where
  Temp : Rat
  FeelsLike : Rat
  TempMin : Rat
  TempMax : Rat
  Pressure : Int
  Humidity : Int
deriving DecidableEq

/-- One weather condition entry of the provider response. -/
structure Weather where
  ID : Int
  Main : String
  Description : String
  Icon : String
deriving DecidableEq

/-- Wind block of the provider response. -/
structure Wind where
  Speed : Rat
  Deg : Int
deriving DecidableEq

/-- Cloud-cover block of the provider response. -/
structure Clouds where
  All : Int
deriving DecidableEq

/-- System block of the provider response. -/
structure Sys where
  Country : String
  Sunrise : Int
  Sunset : Int
deriving DecidableEq

/-- Provider response shape (`models.WeatherResponse`). -/
structure WeatherResponse where
  Name : String
  Coord : Coord
  Main : MainData
  Weather : List Weather
  Wind : Wind
  Clouds : Clouds
  Sys : Sys
  Dt : Int
deriving DecidableEq

/-- Record persisted to the table store (`models.WeatherRecord`).  `CreatedAt` is a
`time.Time` in the source, carried here as unix seconds. -/
structure WeatherRecord where
  ID : String
  Timestamp : String
  CityName : String
  Temperature : Rat
  Description : String
  Humidity : Int
  Pressure : Int
  WindSpeed : Rat
  Country : String
  CreatedAt : Int
  TTL : Int
deriving DecidableEq

/-- Archival envelope persisted to the blob store (`models.S3WeatherData`).  The Go
struct embeds `WeatherRecord`; the embedding is the explicit first field here. -/
structure S3WeatherData where
  record : WeatherRecord
  RawResponse : WeatherResponse
deriving DecidableEq

/-! ## RFC 3339 formatting of unix seconds (Go `time.Format(time.RFC3339)` in UTC) -/

/-- Civil date from a day count relative to 1970-01-01 (standard era-based algorithm,
matching Go's proleptic Gregorian calendar). Returns (year, month, day). -/
def civilFromDays (z0 : Int) : Int × Nat × Nat :=
  let z := z0 + 719468
  let era := z.ediv 146097
  let doe := (z - era * 146097).toNat
  let yoe := (doe - doe / 1460 + doe / 36524 - doe / 146096) / 365
  let doy := doe - (365 * yoe + yoe / 4 - yoe / 100)
  let mp := (5 * doy + 2) / 153
  let d := doy - (153 * mp + 2) / 5 + 1
  let m := if mp < 10 then mp + 3 else mp - 9
  (((yoe : Int) + era * 400) + (if m ≤ 2 then 1 else 0), m, d)

/-- Zero-padded two-digit decimal. -/
def pad2 (n : Nat) : String :=
  if n < 10 then "0" ++ toString n else toString n

/-- Zero-padded four-digit decimal (years in scope are 1970..9999). -/
def pad4 (n : Nat) : String :=
  if n < 10 then "000" ++ toString n
  else if n < 100 then "00" ++ toString n
  else if n < 1000 then "0" ++ toString n
  else toString n

/-- RFC 3339 rendering of a unix-seconds instant in UTC, `YYYY-MM-DDTHH:MM:SSZ`. -/
def formatRFC3339 (t : Int) : String :=
  let days := t.ediv 86400
  let sod := (t - days * 86400).toNat
  let ymd := civilFromDays days
  pad4 ymd.1.toNat ++ "-" ++ pad2 ymd.2.1 ++ "-" ++ pad2 ymd.2.2 ++ "T" ++
    pad2 (sod / 3600) ++ ":" ++ pad2 (sod % 3600 / 60) ++ ":" ++ pad2 (sod % 60) ++ "Z"

/-! ## Record mapper (internal/services/weather.go) -/

namespace Services

/-- Embedding of `WeatherService.ConvertToWeatherRecord`.  The source takes `now` from
`time.Now()`; here it is an explicit unix-seconds parameter.  `ttl` is
`now.Add(30 * 24 * time.Hour).Unix()`, i.e. `now + 30*24*3600`; the identifier is
`fmt.Sprintf("%s-%d", response.Name, now.Unix())`; the description falls back to the
zero value `""` when the condition list is empty. -/
def ConvertToWeatherRecord (response : WeatherResponse) (now : Int) : WeatherRecord :=
  let ttl := now + 30 * 24 * 3600
  { ID := response.Name ++ "-" ++ toString now
    Timestamp := formatRFC3339 now
    CityName := response.Name
    Temperature := response.Main.Temp
    Description := (response.Weather.head?.map Weather.Description).getD ""
    Humidity := response.Main.Humidity
    Pressure := response.Main.Pressure
    WindSpeed := response.Wind.Speed
    Country := response.Sys.Country
    CreatedAt := now
    TTL := ttl }

/-- Embedding of `WeatherService.ConvertToS3Data`: pure structural combination. -/
def ConvertToS3Data (response : WeatherResponse) (record : WeatherRecord) : S3WeatherData :=
  { record := record, RawResponse := response }

end Services

/-! ## Input validation helpers (cmd/weather-history-api/main.go) -/

/-- Numeric alternatives of the period regex: `[1-9]`, `[1-9][0-9]`, `1[0-6][0-8]`. -/
def isNumericPeriod : List Char → Bool
  | [c] => charIn '1' '9' c
  | [c1, c2] => charIn '1' '9' c1 && charIn '0' '9' c2
  | [c1, c2, c3] => c1 == '1' && charIn '0' '6' c2 && charIn '0' '8' c3
  | _ => false

/-- Embedding of `isValidPeriod`: the regex
`^(6h|24h|1d|[1-9]|[1-9][0-9]|1[0-6][0-8])$` as a predicate on the character list. -/
def isValidPeriod (period : String) : Bool :=
  period == "6h" || period == "24h" || period == "1d" || isNumericPeriod period.toList

/-- Go `unicode.IsSpace` (the Unicode `White_Space` property), as used by
`strings.TrimSpace`. -/
def isUnicodeSpace (c : Char) : Bool :=
  c == ' ' || c == '\t' || c == '\n' || c.toNat == 0x0B || c.toNat == 0x0C || c == '\r' ||
    c.toNat == 0x85 || c.toNat == 0xA0 || c.toNat == 0x1680 ||
    (0x2000 ≤ c.toNat && c.toNat ≤ 0x200A) ||
    c.toNat == 0x2028 || c.toNat == 0x2029 || c.toNat == 0x202F ||
    c.toNat == 0x205F || c.toNat == 0x3000

/-- Go `strings.TrimSpace` on the rune sequence. -/
def trimSpace (cs : List Char) : List Char :=
  ((cs.dropWhile isUnicodeSpace).reverse.dropWhile isUnicodeSpace).reverse

/-- RE2 character class `[a-zA-Z\s\-]` (RE2's `\s` is `[\t\n\f\r ]`): exactly the
characters kept by `sanitizeCityName`'s `ReplaceAllString` of the complement with `""`. -/
def allowedCityChar (c : Char) : Bool :=
  charIn 'a' 'z' c || charIn 'A' 'Z' c ||
    c == '\t' || c == '\n' || c.toNat == 0x0C || c == '\r' || c == ' ' || c == '-'

/-- Embedding of `sanitizeCityName`: trim whitespace, strip every character outside
`[a-zA-Z\s\-]`, truncate to 50.  After the strip every character is ASCII, so the Go
byte slice `city[:50]` agrees with taking 50 characters. -/
def sanitizeCityName (city : String) : String :=
  let cs := trimSpace city.toList
  let cs2 := cs.filter allowedCityChar
  let cs3 := if cs2.length > 50 then cs2.take 50 else cs2
  String.mk cs3

/-- Digit-run parser underlying `strconv.Atoi`: every character must be a decimal
digit, and the run must be non-empty. -/
def parseDigits (cs : List Char) : Option Nat :=
  if cs = [] then none
  else if cs.all (charIn '0' '9') then
    some (cs.foldl (fun a c => 10 * a + (c.toNat - 48)) 0)
  else none

/-- Sign handling of `strconv.Atoi` over the rune sequence. -/
def atoiChars : List Char → Option Int
  | [] => none
  | c :: cs =>
    if c = '+' then (parseDigits cs).map (fun n => (n : Int))
    else if c = '-' then (parseDigits cs).map (fun n => -(n : Int))
    else (parseDigits (c :: cs)).map (fun n => (n : Int))

/-- Embedding of `strconv.Atoi` (optional sign, then digits; anything else errors).
Int64 overflow cannot occur on the at-most-three-character strings the validated
handler feeds it. -/
def atoi (s : String) : Option Int :=
  atoiChars s.toList

/-- Code-point-wise lexicographic `≤` on rune sequences: Go's `<`/`<=` on strings
(byte-wise comparison, which on the ASCII timestamps in scope equals rune-wise). -/
def strLeb : List Char → List Char → Bool
  | [], _ => true
  | _ :: _, [] => false
  | c :: cs, d :: ds =>
    if c.toNat < d.toNat then true
    else if d.toNat < c.toNat then false
    else strLeb cs ds

theorem charToNat_inj {c d : Char} (h : c.toNat = d.toNat) : c = d :=
  Char.eq_of_val_eq (UInt32.toNat.inj h)

theorem strLeb_cons_iff (c d : Char) (cs ds : List Char) :
    strLeb (c :: cs) (d :: ds) = true ↔
      (c.toNat < d.toNat ∨ (c.toNat = d.toNat ∧ strLeb cs ds = true)) := by
  simp only [strLeb]
  split_ifs with h1 h2
  · simp [h1]
  · constructor
    · intro h; exact absurd h (by simp)
    · rintro (h | ⟨h, _⟩) <;> omega
  · have heq : c.toNat = d.toNat := by omega
    constructor
    · intro h; exact Or.inr ⟨heq, h⟩
    · rintro (h | ⟨_, h⟩)
      · exact absurd h h1
      · exact h

theorem strLeb_total : ∀ a b : List Char, strLeb a b = true ∨ strLeb b a = true
  | [], _ => Or.inl rfl
  | _ :: _, [] => Or.inr rfl
  | c :: cs, d :: ds => by
    rcases strLeb_total cs ds with h | h
    · by_cases h1 : c.toNat < d.toNat
      · exact Or.inl ((strLeb_cons_iff c d cs ds).mpr (Or.inl h1))
      · by_cases h2 : d.toNat < c.toNat
        · exact Or.inr ((strLeb_cons_iff d c ds cs).mpr (Or.inl h2))
        · exact Or.inl ((strLeb_cons_iff c d cs ds).mpr (Or.inr ⟨by omega, h⟩))
    · by_cases h2 : d.toNat < c.toNat
      · exact Or.inr ((strLeb_cons_iff d c ds cs).mpr (Or.inl h2))
      · by_cases h1 : c.toNat < d.toNat
        · exact Or.inl ((strLeb_cons_iff c d cs ds).mpr (Or.inl h1))
        · exact Or.inr ((strLeb_cons_iff d c ds cs).mpr (Or.inr ⟨by omega, h⟩))

theorem strLeb_trans : ∀ a b c : List Char,
    strLeb a b = true → strLeb b c = true → strLeb a c = true
  | [], _, _, _, _ => rfl
  | _ :: _, [], _, hab, _ => by simp [strLeb] at hab
  | _ :: _, _ :: _, [], _, hbc => by simp [strLeb] at hbc
  | x :: xs, y :: ys, z :: zs, hab, hbc => by
    rcases (strLeb_cons_iff x y xs ys).mp hab with h1 | ⟨h1, hr1⟩
    · rcases (strLeb_cons_iff y z ys zs).mp hbc with h2 | ⟨h2, hr2⟩
      · exact (strLeb_cons_iff x z xs zs).mpr (Or.inl (by omega))
      · exact (strLeb_cons_iff x z xs zs).mpr (Or.inl (by omega))
    · rcases (strLeb_cons_iff y z ys zs).mp hbc with h2 | ⟨h2, hr2⟩
      · exact (strLeb_cons_iff x z xs zs).mpr (Or.inl (by omega))
      · exact (strLeb_cons_iff x z xs zs).mpr
          (Or.inr ⟨by omega, strLeb_trans xs ys zs hr1 hr2⟩)

theorem strLeb_antisymm : ∀ a b : List Char,
    strLeb a b = true → strLeb b a = true → a = b
  | [], [], _, _ => rfl
  | [], _ :: _, _, hba => by simp [strLeb] at hba
  | _ :: _, [], hab, _ => by simp [strLeb] at hab
  | x :: xs, y :: ys, hab, hba => by
    rcases (strLeb_cons_iff x y xs ys).mp hab with h1 | ⟨h1, hr1⟩
    · rcases (strLeb_cons_iff y x ys xs).mp hba with h2 | ⟨h2, _⟩ <;> exact absurd h1 (by omega)
    · rcases (strLeb_cons_iff y x ys xs).mp hba with h2 | ⟨h2, hr2⟩
      · exact absurd h2 (by omega)
      · rw [charToNat_inj h1, strLeb_antisymm xs ys hr1 hr2]

/-- Decidable equality of `Except` results, for evaluating the accessor on concrete
inputs. -/
instance {ε α : Type} [DecidableEq ε] [DecidableEq α] : DecidableEq (Except ε α) := fun a b =>
  match a, b with
  | .error x, .error y =>
    if h : x = y then .isTrue (congrArg Except.error h)
    else .isFalse (fun hc => h (Except.error.inj hc))
  | .ok x, .ok y =>
    if h : x = y then .isTrue (congrArg Except.ok h)
    else .isFalse (fun hc => h (Except.ok.inj hc))
  | .error _, .ok _ => .isFalse (fun hc => Except.noConfusion hc)
  | .ok _, .error _ => .isFalse (fun hc => Except.noConfusion hc)

/-! ## Table store accessor (internal/handlers/dynamodb.go) -/

namespace Handlers

/-- One raw item of a scan page: either it unmarshals to a `WeatherRecord` or it is
malformed (`dynamodbattribute.UnmarshalMap` fails on it). -/
inductive ScanItem
  | valid (record : WeatherRecord)
  | malformed
deriving DecidableEq

/-- Per-item unmarshalling outcome. -/
def decodeItem : ScanItem → Option WeatherRecord
  | .valid record => some record
  | .malformed => none

/-- The `ScanPagesWithContext` callback of `GetWeatherHistory`: append each page's
successfully unmarshalled records, skipping invalid ones (`continue`). -/
def collectPages (pages : List (List ScanItem)) : List WeatherRecord :=
  pages.foldl (fun records page => records ++ page.filterMap decodeItem) []

/-- Ordering used by the final `sort.Slice` (ascending `Timestamp` string, Go's
byte-wise string comparison). -/
def tsLE (a b : WeatherRecord) : Prop :=
  strLeb a.Timestamp.data b.Timestamp.data = true

instance : DecidableRel tsLE := fun a b =>
  inferInstanceAs (Decidable (strLeb a.Timestamp.data b.Timestamp.data = true))

/-- Embedding of `DynamoDBHandler.GetWeatherHistory`.  The external DynamoDB scan —
including its server-side filter `cityName = :city AND #ts BETWEEN :start AND :end` —
is the parameter `scan`, which returns either a scan error or the pages of raw items.
The trailing `sort.Slice` with the strict `<` comparator is modelled by a stable
insertion sort with respect to `≤` on timestamps; this coincides with Go's behaviour on
short slices (where `sort.Slice` runs insertion sort) and fixes one representative of
the orders the unstable sort may produce on equal keys. -/
def GetWeatherHistory (scan : String → Int → Int → Except String (List (List ScanItem)))
    (cityName : String) (startTime endTime : Int) : Except String (List WeatherRecord) :=
  match scan cityName startTime endTime with
  | .error e => .error ("failed to scan weather history: " ++ e)
  | .ok pages => .ok (List.insertionSort tsLE (collectPages pages))

end Handlers

/-! ## History query handler (cmd/weather-history-api/main.go) -/

namespace HistoryApi

/-- API gateway request: method plus the `Headers` and `QueryStringParameters` maps. -/
structure APIGatewayProxyRequest where
  HTTPMethod : String
  Headers : List (String × String)
  QueryStringParameters : List (String × String)

/-- Go map lookup, yielding the zero value `""` when the key is absent. -/
def mapGet (m : List (String × String)) (k : String) : String :=
  match m.find? (fun p => p.1 == k) with
  | some p => p.2
  | none => ""

/-- Success payload (`WeatherHistoryResponse`), serialized as the 200 body. -/
structure WeatherHistoryResponse where
  statusCode : Nat
  message : String
  data : List WeatherRecord
  count : Nat
  period : String
  startTime : String
  endTime : String
deriving DecidableEq

/-- Body of an API gateway response: empty (OPTIONS preflight), a JSON error object
carrying the given message, or the serialized history payload. -/
inductive Body
  | empty
  | errorBody (msg : String)
  | jsonBody (resp : WeatherHistoryResponse)
deriving DecidableEq

/-- API gateway response (the CORS headers are one constant map in the source and are
omitted here). -/
structure APIGatewayProxyResponse where
  statusCode : Nat
  body : Body
deriving DecidableEq

/-- Query step shared by the three `switch` cases of `HandleRequest`: compute
`endTime = now` and `startTime = endTime - hours`, query the store, and build either
the 200 response or the 500 error.  In the source this code is repeated inline per
case with the response built after the `switch`. -/
def queryAndRespond (scan : String → Int → Int → Except String (List (List Handlers.ScanItem)))
    (city : String) (now : Int) (hours : Nat) (period : String) : APIGatewayProxyResponse :=
  let endTime := now
  let startTime := endTime - (hours : Int) * 3600
  match Handlers.GetWeatherHistory scan city startTime endTime with
  | .error _ => ⟨500, .errorBody "Failed to retrieve weather history"⟩
  | .ok records =>
    ⟨200, .jsonBody
      { statusCode := 200
        message := "Weather history retrieved successfully"
        data := records
        count := records.length
        period := period
        startTime := formatRFC3339 startTime
        endTime := formatRFC3339 endTime }⟩

/-- Embedding of the history `HandleRequest`.  `cfgCityName` is the configured default
city, `scan` the external store scan, and `now` the value `time.Now()` reads during
the invocation (unix seconds). -/
def HandleRequest (cfgCityName : String)
    (scan : String → Int → Int → Except String (List (List Handlers.ScanItem)))
    (now : Int) (request : APIGatewayProxyRequest) : APIGatewayProxyResponse :=
  if request.HTTPMethod = "OPTIONS" then ⟨200, .empty⟩
  else if request.HTTPMethod ≠ "GET" then ⟨405, .errorBody "Method not allowed"⟩
  else if mapGet request.Headers "X-API-Key" = "" ∧ mapGet request.Headers "x-api-key" = "" then
    ⟨401, .errorBody "API key required"⟩
  else
    let period0 := mapGet request.QueryStringParameters "period"
    let period := if period0 = "" then "6h" else period0
    if ¬ isValidPeriod period then ⟨400, .errorBody "Invalid period parameter"⟩
    else
      let city0 := mapGet request.QueryStringParameters "city"
      let city1 := if city0 = "" then cfgCityName else city0
      let city := sanitizeCityName city1
      if period = "6h" then queryAndRespond scan city now 6 period
      else if period = "24h" ∨ period = "1d" then queryAndRespond scan city now 24 period
      else
        match atoi period with
        | some hours =>
          if 0 < hours ∧ hours ≤ 168 then queryAndRespond scan city now hours.toNat period
          else ⟨400, .errorBody "Invalid period. Use \x276h\x27, \x2724h\x27, or number of hours (1-168)"⟩
        | none => ⟨400, .errorBody "Invalid period. Use \x276h\x27, \x2724h\x27, or number of hours (1-168)"⟩

end HistoryApi

/-! ## Collector handler (cmd/weather-lambda/main.go) -/

namespace Collector

/-- Success payload of the collector response (the `Data` map fields). -/
structure RespData where
  city : String
  temperature : Rat
  description : String
  timestamp : String
  recordId : String
deriving DecidableEq

/-- Collector Lambda response. -/
structure Response where
  statusCode : Nat
  message : String
  data : Option RespData
deriving DecidableEq

/-- Observable writes committed to the external stores, in commit order. -/
inductive Effect
  | dynamoPut (record : WeatherRecord)
  | s3Put (data : S3WeatherData)
deriving DecidableEq

/-- Outcomes of the external calls of one collector invocation: the fetch result, and
per-argument failure (`some errorMessage`) or success (`none`) of the two store
writes. -/
structure Env where
  fetchResult : Except String WeatherResponse
  dynamoPutResult : WeatherRecord → Option String
  s3PutResult : S3WeatherData → Option String

/-- Embedding of the collector `HandleRequest`.  The result is `none` when the
invocation panics: the success log statement dereferences
`weatherResponse.Weather[0].Description` before any conversion, which faults when the
condition list is empty.  Alongside the response the committed store writes are
returned in commit order. -/
def HandleRequest (env : Env) (now : Int) : Option (Response × List Effect) :=
  match env.fetchResult with
  | .error e => some (⟨500, "Failed to fetch weather data: " ++ e, none⟩, [])
  | .ok weatherResponse =>
    match weatherResponse.Weather with
    | [] => none
    | _ :: _ =>
      let weatherRecord := Services.ConvertToWeatherRecord weatherResponse now
      let s3Data := Services.ConvertToS3Data weatherResponse weatherRecord
      match env.dynamoPutResult weatherRecord with
      | some e => some (⟨500, "Failed to store to DynamoDB: " ++ e, none⟩, [])
      | none =>
        match env.s3PutResult s3Data with
        | some e =>
          some (⟨500, "Failed to store to S3: " ++ e, none⟩, [Effect.dynamoPut weatherRecord])
        | none =>
          some (⟨200, "Weather data processed successfully",
              some ⟨weatherRecord.CityName, weatherRecord.Temperature,
                weatherRecord.Description, weatherRecord.Timestamp, weatherRecord.ID⟩⟩,
            [Effect.dynamoPut weatherRecord, Effect.s3Put s3Data])

end Collector

/-! ## Concrete fixtures -/

/-- Condition entry of the spec's fixed round-trip reading. -/
def clearSky : Weather :=
  { ID := 800, Main := "Clear", Description := "Clear sky", Icon := "01d" }

/-- Fixed `WeatherReading` of the spec's round-trip property: temperature 25.5, city
"Tokyo", humidity 60, pressure 1013, description "Clear sky", wind speed 3.5,
country "JP". -/
def tokyoResponse : WeatherResponse :=
  { Name := "Tokyo"
    Coord := { Lon := 139.69, Lat := 35.69 }
    Main := { Temp := 25.5, FeelsLike := 26, TempMin := 20, TempMax := 28,
              Pressure := 1013, Humidity := 60 }
    Weather := [clearSky]
    Wind := { Speed := 3.5, Deg := 180 }
    Clouds := { All := 0 }
    Sys := { Country := "JP", Sunrise := 0, Sunset := 0 }
    Dt := 0 }

/-- Provider response with an empty weather condition list. -/
def emptyWeatherResponse : WeatherResponse :=
  { tokyoResponse with Weather := [] }

/-- Stored-record fixture for the history query properties. -/
def recA : WeatherRecord :=
  { ID := "Tokyo-1704067200", Timestamp := "2024-01-01T00:00:00Z", CityName := "Tokyo",
    Temperature := 20, Description := "clear", Humidity := 50, Pressure := 1000,
    WindSpeed := 1, Country := "JP", CreatedAt := 1704067200, TTL := 1706659200 }

/-- A record distinct from `recA` but with the same timestamp string. -/
def recB : WeatherRecord :=
  { recA with ID := "Tokyo-duplicate", Temperature := 21 }

/-- A record one hour after `recA`. -/
def recC : WeatherRecord :=
  { recA with
    ID := "Tokyo-1704070800"
    Timestamp := "2024-01-01T01:00:00Z"
    CreatedAt := 1704070800 }

/-! ## Helper lemmas -/

theorem collectPages_go (pages : List (List Handlers.ScanItem)) (acc : List WeatherRecord) :
    pages.foldl (fun records page => records ++ page.filterMap Handlers.decodeItem) acc =
      acc ++ pages.flatten.filterMap Handlers.decodeItem := by
  induction pages generalizing acc with
  | nil => simp
  | cons page rest ih => simp [ih, List.filterMap_append, List.append_assoc]

theorem collectPages_eq (pages : List (List Handlers.ScanItem)) :
    Handlers.collectPages pages = pages.flatten.filterMap Handlers.decodeItem := by
  simpa using collectPages_go pages []

theorem parseDigits_digits (cs : List Char) (hne : cs ≠ [])
    (hall : cs.all (charIn '0' '9') = true) :
    parseDigits cs = some (cs.foldl (fun a c => 10 * a + (c.toNat - 48)) 0) := by
  simp [parseDigits, hne, hall]

theorem isValidPeriod_numeric (p : String) (h6 : p ≠ "6h") (h24 : p ≠ "24h")
    (h1d : p ≠ "1d") (hv : isValidPeriod p = true) :
    ∃ n : Int, atoi p = some n ∧ 0 < n ∧ n ≤ 168 := by
  have hb6 : (p == "6h") = false := beq_eq_false_iff_ne.mpr h6
  have hb24 : (p == "24h") = false := beq_eq_false_iff_ne.mpr h24
  have hb1d : (p == "1d") = false := beq_eq_false_iff_ne.mpr h1d
  unfold isValidPeriod at hv
  rw [hb6, hb24, hb1d] at hv
  simp only [Bool.false_or] at hv
  unfold atoi
  rcases hcs : p.toList with _ | ⟨c1, _ | ⟨c2, _ | ⟨c3, _ | ⟨c4, rest⟩⟩⟩⟩
  · rw [hcs] at hv
    simp [isNumericPeriod] at hv
  · rw [hcs] at hv
    simp only [isNumericPeriod, charIn, Bool.and_eq_true, decide_eq_true_eq] at hv
    rw [show ('1' : Char).toNat = 49 from rfl, show ('9' : Char).toNat = 57 from rfl] at hv
    have hplus : c1 ≠ '+' := by
      intro he; rw [he] at hv; exact absurd hv.1 (by decide)
    have hminus : c1 ≠ '-' := by
      intro he; rw [he] at hv; exact absurd hv.1 (by decide)
    have hall : ([c1].all (charIn '0' '9')) = true := by
      simp only [List.all_cons, List.all_nil, Bool.and_true, charIn, Bool.and_eq_true,
        decide_eq_true_eq]
      rw [show ('0' : Char).toNat = 48 from rfl, show ('9' : Char).toNat = 57 from rfl]
      omega
    simp only [atoiChars, if_neg hplus, if_neg hminus]
    rw [parseDigits_digits _ (by simp) hall]
    simp only [List.foldl_cons, List.foldl_nil, Option.map_some']
    exact ⟨((10 * 0 + (c1.toNat - 48) : Nat) : Int), rfl, by omega, by omega⟩
  · rw [hcs] at hv
    simp only [isNumericPeriod, charIn, Bool.and_eq_true, decide_eq_true_eq] at hv
    rw [show ('1' : Char).toNat = 49 from rfl, show ('9' : Char).toNat = 57 from rfl,
      show ('0' : Char).toNat = 48 from rfl] at hv
    have hplus : c1 ≠ '+' := by
      intro he; rw [he] at hv; exact absurd hv.1.1 (by decide)
    have hminus : c1 ≠ '-' := by
      intro he; rw [he] at hv; exact absurd hv.1.1 (by decide)
    have hall : ([c1, c2].all (charIn '0' '9')) = true := by
      simp only [List.all_cons, List.all_nil, Bool.and_true, charIn, Bool.and_eq_true,
        decide_eq_true_eq]
      rw [show ('0' : Char).toNat = 48 from rfl, show ('9' : Char).toNat = 57 from rfl]
      omega
    simp only [atoiChars, if_neg hplus, if_neg hminus]
    rw [parseDigits_digits _ (by simp) hall]
    simp only [List.foldl_cons, List.foldl_nil, Option.map_some']
    exact ⟨((10 * (10 * 0 + (c1.toNat - 48)) + (c2.toNat - 48) : Nat) : Int), rfl,
      by omega, by omega⟩
  · rw [hcs] at hv
    simp only [isNumericPeriod, charIn, Bool.and_eq_true, decide_eq_true_eq,
      beq_iff_eq] at hv
    rw [show ('0' : Char).toNat = 48 from rfl, show ('6' : Char).toNat = 54 from rfl,
      show ('8' : Char).toNat = 56 from rfl] at hv
    obtain ⟨⟨h1, hc2a, hc2b⟩, hc3a, hc3b⟩ := hv
    subst h1
    have hall : (['1', c2, c3].all (charIn '0' '9')) = true := by
      simp only [List.all_cons, List.all_nil, Bool.and_true, charIn, Bool.and_eq_true,
        decide_eq_true_eq]
      rw [show ('0' : Char).toNat = 48 from rfl, show ('9' : Char).toNat = 57 from rfl,
        show ('1' : Char).toNat = 49 from rfl]
      omega
    simp only [atoiChars, if_neg (by decide : ('1' : Char) ≠ '+'),
      if_neg (by decide : ('1' : Char) ≠ '-')]
    rw [parseDigits_digits _ (by simp) hall]
    simp only [List.foldl_cons, List.foldl_nil, Option.map_some']
    rw [show ('1' : Char).toNat = 49 from rfl]
    exact ⟨((10 * (10 * (10 * 0 + (49 - 48)) + (c2.toNat - 48)) + (c3.toNat - 48) : Nat) : Int),
      rfl, by omega, by omega⟩
  · rw [hcs] at hv
    simp [isNumericPeriod] at hv

instance : IsTotal WeatherRecord Handlers.tsLE :=
  ⟨fun a b => strLeb_total a.Timestamp.data b.Timestamp.data⟩

instance : IsTrans WeatherRecord Handlers.tsLE :=
  ⟨fun a b c hab hbc => strLeb_trans a.Timestamp.data b.Timestamp.data c.Timestamp.data hab hbc⟩

theorem tsLE_antisymm_timestamp {a b : WeatherRecord}
    (hab : Handlers.tsLE a b) (hba : Handlers.tsLE b a) : a.Timestamp = b.Timestamp := by
  have hdata : a.Timestamp.data = b.Timestamp.data :=
    strLeb_antisymm a.Timestamp.data b.Timestamp.data hab hba
  cases hts : a.Timestamp with
  | mk da =>
    cases hts2 : b.Timestamp with
    | mk db => rw [hts, hts2] at hdata; simp only at hdata; rw [hdata]

theorem sorted_nodup_timestamps_eq (l1 l2 : List WeatherRecord)
    (hp : l1.Perm l2) (hs1 : l1.Sorted Handlers.tsLE) (hs2 : l2.Sorted Handlers.tsLE)
    (hn : (l1.map WeatherRecord.Timestamp).Nodup) : l1 = l2 := by
  have hn2 : (l2.map WeatherRecord.Timestamp).Nodup := ((hp.map _).nodup_iff).mp hn
  have strict : ∀ l : List WeatherRecord, l.Sorted Handlers.tsLE →
      (l.map WeatherRecord.Timestamp).Nodup →
      l.Pairwise (fun a b => Handlers.tsLE a b ∧ a.Timestamp ≠ b.Timestamp) := by
    intro l hs hnd
    have hne : l.Pairwise (fun a b => a.Timestamp ≠ b.Timestamp) := List.pairwise_map.mp hnd
    exact List.Pairwise.and hs hne
  haveI : IsAntisymm WeatherRecord (fun a b => Handlers.tsLE a b ∧ a.Timestamp ≠ b.Timestamp) :=
    ⟨fun _ _ h1 h2 => absurd (tsLE_antisymm_timestamp h1.1 h2.1) h1.2⟩
  exact List.eq_of_perm_of_sorted hp (strict l1 hs1 hn) (strict l2 hs2 hn2)

theorem queryAndRespond_empty (city : String) (now : Int) (hours : Nat) (period : String) :
    HistoryApi.queryAndRespond (fun _ _ _ => Except.ok []) city now hours period =
      ⟨200, HistoryApi.Body.jsonBody
        { statusCode := 200
          message := "Weather history retrieved successfully"
          data := []
          count := 0
          period := period
          startTime := formatRFC3339 (now - (hours : Int) * 3600)
          endTime := formatRFC3339 now }⟩ := rfl

theorem queryAndRespond_statusCode
    (scan : String → Int → Int → Except String (List (List Handlers.ScanItem)))
    (city : String) (now : Int) (hours : Nat) (period : String) :
    (HistoryApi.queryAndRespond scan city now hours period).statusCode = 200 ∨
      (HistoryApi.queryAndRespond scan city now hours period).statusCode = 500 := by
  cases h : Handlers.GetWeatherHistory scan city (now - (hours : Int) * 3600) now with
  | error e => right; simp only [HistoryApi.queryAndRespond, h]
  | ok records => left; simp only [HistoryApi.queryAndRespond, h]

theorem handleRequest_invalid_period (cfg : String)
    (scan : String → Int → Int → Except String (List (List Handlers.ScanItem)))
    (now : Int) (hdrs qs : List (String × String))
    (hk : ¬(HistoryApi.mapGet hdrs "X-API-Key" = "" ∧ HistoryApi.mapGet hdrs "x-api-key" = ""))
    (hv : isValidPeriod (if HistoryApi.mapGet qs "period" = "" then "6h"
      else HistoryApi.mapGet qs "period") = false) :
    HistoryApi.HandleRequest cfg scan now ⟨"GET", hdrs, qs⟩ =
      ⟨400, HistoryApi.Body.errorBody "Invalid period parameter"⟩ := by
  simp only [HistoryApi.HandleRequest]
  rw [if_neg (show ¬ ("GET" : String) = "OPTIONS" by decide)]
  rw [if_neg (show ¬ ("GET" : String) ≠ "GET" by decide)]
  rw [if_neg hk]
  rw [if_pos (by simp [hv])]

theorem handleRequest_valid_period (cfg : String)
    (scan : String → Int → Int → Except String (List (List Handlers.ScanItem)))
    (now : Int) (hdrs qs : List (String × String))
    (hk : ¬(HistoryApi.mapGet hdrs "X-API-Key" = "" ∧ HistoryApi.mapGet hdrs "x-api-key" = ""))
    (hv : isValidPeriod (if HistoryApi.mapGet qs "period" = "" then "6h"
      else HistoryApi.mapGet qs "period") = true) :
    ∃ hours : Nat, 0 < hours ∧ hours ≤ 168 ∧
      HistoryApi.HandleRequest cfg scan now ⟨"GET", hdrs, qs⟩ =
        HistoryApi.queryAndRespond scan
          (sanitizeCityName (if HistoryApi.mapGet qs "city" = "" then cfg
            else HistoryApi.mapGet qs "city"))
          now hours
          (if HistoryApi.mapGet qs "period" = "" then "6h"
            else HistoryApi.mapGet qs "period") := by
  simp only [HistoryApi.HandleRequest]
  rw [if_neg (show ¬ ("GET" : String) = "OPTIONS" by decide)]
  rw [if_neg (show ¬ ("GET" : String) ≠ "GET" by decide)]
  rw [if_neg hk]
  rw [if_neg (by simp [hv])]
  by_cases h6 : (if HistoryApi.mapGet qs "period" = "" then "6h"
      else HistoryApi.mapGet qs "period") = "6h"
  · rw [if_pos h6]
    exact ⟨6, by omega, by omega, rfl⟩
  · rw [if_neg h6]
    by_cases h24 : (if HistoryApi.mapGet qs "period" = "" then "6h"
        else HistoryApi.mapGet qs "period") = "24h" ∨
        (if HistoryApi.mapGet qs "period" = "" then "6h"
        else HistoryApi.mapGet qs "period") = "1d"
    · rw [if_pos h24]
      exact ⟨24, by omega, by omega, rfl⟩
    · rw [if_neg h24]
      obtain ⟨n, ha, h0, h168⟩ := isValidPeriod_numeric _ h6
        (fun h => h24 (Or.inl h)) (fun h => h24 (Or.inr h)) hv
      rw [ha]
      simp only []
      rw [if_pos (⟨h0, h168⟩ : 0 < n ∧ n ≤ 168)]
      exact ⟨n.toNat, by omega, by omega, rfl⟩

/-! ## Claims -/

/-- C1: the claim says every bare decimal integer string from 1 to 168 is accepted by
the history handler, but the period regex alternative `1[0-6][0-8]` excludes 109 (and
119, ..., 159): a GET request with an API key and `period=109` is answered with
status 400 `Invalid period parameter`, although 109 lies in the range 1..168 that the
handler's own comment and error message promise to accept. -/
theorem C1_period_109_rejected :
    isValidPeriod "109" = false ∧
    HistoryApi.HandleRequest "Tokyo" (fun _ _ _ => Except.ok []) 1700000000
        ⟨"GET", [("X-API-Key", "key")], [("period", "109")]⟩ =
      ⟨400, HistoryApi.Body.errorBody "Invalid period parameter"⟩ ∧
    1 ≤ 109 ∧ 109 ≤ 168 :=
  ⟨rfl, rfl, by omega, by omega⟩

/-- C2 counterexample: the claim lists "6" among the period values answered with 400,
but "6" matches the `[1-9]` alternative of the period regex, so a GET request with an
API key and `period=6` is accepted and (with a successful scan) answered with
status 200, not 400. -/
theorem C2_period_6_accepted :
    isValidPeriod "6" = true ∧
    (HistoryApi.HandleRequest "Tokyo" (fun _ _ _ => Except.ok []) 1700000000
        ⟨"GET", [("X-API-Key", "key")], [("period", "6")]⟩).statusCode = 200 :=
  ⟨rfl, rfl⟩

/-- C2 as amended: for each of the period values "0", "169", "abc" and "-5" (not "6",
which is a valid integer period), a GET request to the history endpoint with an API
key present is answered with status 400 `Invalid period parameter`, for every store
scan, clock value and configured city. -/
theorem C2_invalid_periods_rejected (cfg : String)
    (scan : String → Int → Int → Except String (List (List Handlers.ScanItem)))
    (now : Int) :
    HistoryApi.HandleRequest cfg scan now
        ⟨"GET", [("X-API-Key", "key")], [("period", "0")]⟩ =
      ⟨400, HistoryApi.Body.errorBody "Invalid period parameter"⟩ ∧
    HistoryApi.HandleRequest cfg scan now
        ⟨"GET", [("X-API-Key", "key")], [("period", "169")]⟩ =
      ⟨400, HistoryApi.Body.errorBody "Invalid period parameter"⟩ ∧
    HistoryApi.HandleRequest cfg scan now
        ⟨"GET", [("X-API-Key", "key")], [("period", "abc")]⟩ =
      ⟨400, HistoryApi.Body.errorBody "Invalid period parameter"⟩ ∧
    HistoryApi.HandleRequest cfg scan now
        ⟨"GET", [("X-API-Key", "key")], [("period", "-5")]⟩ =
      ⟨400, HistoryApi.Body.errorBody "Invalid period parameter"⟩ :=
  ⟨rfl, rfl, rfl, rfl⟩

/-- C3: the claim says the collector completes without a runtime fault on every
provider response including an empty condition list, but the collector's success log
dereferences `weatherResponse.Weather[0]` before conversion: a fetched response whose
condition list is empty makes the invocation panic (result `none`), even though the
record mapper itself would have produced an empty description without error. -/
theorem C3_empty_conditions_panic (env : Collector.Env) (resp : WeatherResponse)
    (now : Int) (hf : env.fetchResult = Except.ok resp) (hw : resp.Weather = []) :
    Collector.HandleRequest env now = none ∧
    (Services.ConvertToWeatherRecord resp now).Description = "" := by
  constructor
  · simp only [Collector.HandleRequest, hf, hw]
  · simp [Services.ConvertToWeatherRecord, hw]

/-- C3 witness: a concrete environment whose fetch succeeds with an empty condition
list panics the collector, while the mapper alone yields an empty description. -/
theorem C3_empty_conditions_panic_witness :
    (Collector.Env.mk (Except.ok emptyWeatherResponse) (fun _ => none)
        (fun _ => none)).fetchResult = Except.ok emptyWeatherResponse ∧
    emptyWeatherResponse.Weather = [] ∧
    Collector.HandleRequest
        ⟨Except.ok emptyWeatherResponse, fun _ => none, fun _ => none⟩ 1700000000 = none ∧
    (Services.ConvertToWeatherRecord emptyWeatherResponse 1700000000).Description = "" :=
  ⟨rfl, rfl,
    (C3_empty_conditions_panic ⟨Except.ok emptyWeatherResponse, fun _ => none, fun _ => none⟩
      emptyWeatherResponse 1700000000 rfl rfl).1,
    (C3_empty_conditions_panic ⟨Except.ok emptyWeatherResponse, fun _ => none, fun _ => none⟩
      emptyWeatherResponse 1700000000 rfl rfl).2⟩

/-- C4: `ConvertToWeatherRecord` yields identifier `city ++ "-" ++ unixSeconds(now)`,
TTL `now + 2592000`, copies temperature, humidity, pressure, wind speed and country
unchanged, and takes the description from the first condition entry when the list is
non-empty; on the fixed Tokyo reading it yields identifier `"Tokyo-<now>"`,
temperature 25.5 and description "Clear sky". -/
theorem C4_convert_to_weather_record :
    (∀ (resp : WeatherResponse) (now : Int),
      (Services.ConvertToWeatherRecord resp now).ID = resp.Name ++ "-" ++ toString now ∧
      (Services.ConvertToWeatherRecord resp now).TTL = now + 2592000 ∧
      (Services.ConvertToWeatherRecord resp now).Temperature = resp.Main.Temp ∧
      (Services.ConvertToWeatherRecord resp now).Humidity = resp.Main.Humidity ∧
      (Services.ConvertToWeatherRecord resp now).Pressure = resp.Main.Pressure ∧
      (Services.ConvertToWeatherRecord resp now).WindSpeed = resp.Wind.Speed ∧
      (Services.ConvertToWeatherRecord resp now).Country = resp.Sys.Country ∧
      ∀ w ws, resp.Weather = w :: ws →
        (Services.ConvertToWeatherRecord resp now).Description = w.Description) ∧
    (∀ now : Int,
      (Services.ConvertToWeatherRecord tokyoResponse now).ID = "Tokyo-" ++ toString now ∧
      (Services.ConvertToWeatherRecord tokyoResponse now).Temperature = 25.5 ∧
      (Services.ConvertToWeatherRecord tokyoResponse now).Description = "Clear sky") := by
  constructor
  · intro resp now
    refine ⟨rfl, rfl, rfl, rfl, rfl, rfl, rfl, ?_⟩
    intro w ws hw
    show (resp.Weather.head?.map Weather.Description).getD "" = w.Description
    rw [hw]
    rfl
  · intro now
    exact ⟨rfl, rfl, rfl⟩

/-- C4 witness: the description clause applied to the fixed Tokyo reading, whose
condition list is `[clearSky]`. -/
theorem C4_convert_witness :
    tokyoResponse.Weather = clearSky :: [] ∧
    (Services.ConvertToWeatherRecord tokyoResponse 1700000000).Description =
      clearSky.Description :=
  ⟨rfl, (C4_convert_to_weather_record.1 tokyoResponse 1700000000).2.2.2.2.2.2.2
    clearSky [] rfl⟩

/-- C5 counterexample: the claim says a GET request carrying the API-key header under
any casing is never rejected with 401, but the handler looks up only the exact
spellings "X-API-Key" and "x-api-key": a request carrying the key as "X-Api-Key" is
rejected with 401. -/
theorem C5_mixed_case_key_rejected :
    HistoryApi.HandleRequest "Tokyo" (fun _ _ _ => Except.ok []) 1700000000
        ⟨"GET", [("X-Api-Key", "secret")], [("period", "6h")]⟩ =
      ⟨401, HistoryApi.Body.errorBody "API key required"⟩ :=
  rfl

/-- C5 as amended: a GET request to the history endpoint is answered with 401 exactly
when both the "X-API-Key" and the "x-api-key" header entries are absent or empty —
regardless of the query parameters, so the rejection happens before any period or
city validation; in particular a request with no API-key header under any casing is
rejected, but so is one carrying the key under any third spelling. -/
theorem C5_auth_iff_exact_header (cfg : String)
    (scan : String → Int → Int → Except String (List (List Handlers.ScanItem)))
    (now : Int) (hdrs qs : List (String × String)) :
    (HistoryApi.HandleRequest cfg scan now ⟨"GET", hdrs, qs⟩).statusCode = 401 ↔
      (HistoryApi.mapGet hdrs "X-API-Key" = "" ∧ HistoryApi.mapGet hdrs "x-api-key" = "") := by
  by_cases hk : HistoryApi.mapGet hdrs "X-API-Key" = "" ∧ HistoryApi.mapGet hdrs "x-api-key" = ""
  · have hres : HistoryApi.HandleRequest cfg scan now ⟨"GET", hdrs, qs⟩ =
        ⟨401, HistoryApi.Body.errorBody "API key required"⟩ := by
      simp only [HistoryApi.HandleRequest]
      rw [if_neg (show ¬ ("GET" : String) = "OPTIONS" by decide)]
      rw [if_neg (show ¬ ("GET" : String) ≠ "GET" by decide)]
      rw [if_pos hk]
    simp [hres, hk]
  · simp only [hk, iff_false]
    intro h401
    by_cases hv : isValidPeriod (if HistoryApi.mapGet qs "period" = "" then "6h"
        else HistoryApi.mapGet qs "period") = true
    · obtain ⟨hours, _, _, heq⟩ := handleRequest_valid_period cfg scan now hdrs qs hk hv
      rw [heq] at h401
      rcases queryAndRespond_statusCode scan
          (sanitizeCityName (if HistoryApi.mapGet qs "city" = "" then cfg
            else HistoryApi.mapGet qs "city")) now hours
          (if HistoryApi.mapGet qs "period" = "" then "6h"
            else HistoryApi.mapGet qs "period") with h | h <;> omega
    · have hv' : isValidPeriod (if HistoryApi.mapGet qs "period" = "" then "6h"
          else HistoryApi.mapGet qs "period") = false := by
        revert hv
        cases isValidPeriod (if HistoryApi.mapGet qs "period" = "" then "6h"
          else HistoryApi.mapGet qs "period") <;> simp
      rw [handleRequest_invalid_period cfg scan now hdrs qs hk hv'] at h401
      simp at h401

/-- C6: `sanitizeCityName` returns only ASCII letters, whitespace characters and
hyphens, truncated to at most 50 characters; "Tokyo123!" sanitizes to "Tokyo", and a
60-character alphabetic input is truncated to its first 50 characters. -/
theorem C6_sanitize_city_name :
    (∀ s : String,
      (sanitizeCityName s).toList.all
          (fun c => charIn 'a' 'z' c || charIn 'A' 'Z' c || isUnicodeSpace c || c == '-')
        = true ∧
      (sanitizeCityName s).length ≤ 50) ∧
    sanitizeCityName "Tokyo123!" = "Tokyo" ∧
    sanitizeCityName (String.mk (List.replicate 60 'A')) = String.mk (List.replicate 50 'A') := by
  refine ⟨fun s => ⟨?_, ?_⟩, by decide, by decide⟩
  · rw [List.all_eq_true]
    intro c hc
    have hmem : c ∈ (trimSpace s.toList).filter allowedCityChar := by
      have hrw : (sanitizeCityName s).toList =
          (if ((trimSpace s.toList).filter allowedCityChar).length > 50
            then ((trimSpace s.toList).filter allowedCityChar).take 50
            else (trimSpace s.toList).filter allowedCityChar) := rfl
      rw [hrw] at hc
      by_cases hlen : ((trimSpace s.toList).filter allowedCityChar).length > 50
      · rw [if_pos hlen] at hc
        exact List.take_subset _ _ hc
      · rwa [if_neg hlen] at hc
    have hal : allowedCityChar c = true := List.of_mem_filter hmem
    simp only [allowedCityChar, Bool.or_eq_true] at hal
    simp only [Bool.or_eq_true]
    rcases hal with ((((((h | h) | h) | h) | h) | h) | h) | h
    · exact Or.inl (Or.inl (Or.inl h))
    · exact Or.inl (Or.inl (Or.inr h))
    · exact Or.inl (Or.inr (by simp [isUnicodeSpace, h]))
    · exact Or.inl (Or.inr (by simp [isUnicodeSpace, h]))
    · exact Or.inl (Or.inr (by simp [isUnicodeSpace, h]))
    · exact Or.inl (Or.inr (by simp [isUnicodeSpace, h]))
    · exact Or.inl (Or.inr (by simp [isUnicodeSpace, h]))
    · exact Or.inr h
  · show (String.mk _).length ≤ 50
    simp only [String.length]
    by_cases hlen : ((trimSpace s.toList).filter allowedCityChar).length > 50
    · rw [if_pos hlen, List.length_take]
      omega
    · rw [if_neg hlen]
      omega

/-- C7 counterexample: the claim says the returned sequence is a function of the
scanned multiset alone, but two scans returning the same two records — which share a
timestamp but differ — in opposite orders produce different output sequences (the
sort keeps the arrival order of equal keys). -/
theorem C7_scan_order_dependent :
    Handlers.GetWeatherHistory (fun _ _ _ => Except.ok [[Handlers.ScanItem.valid recA,
        Handlers.ScanItem.valid recB]]) "Tokyo" 0 100 ≠
      Handlers.GetWeatherHistory (fun _ _ _ => Except.ok [[Handlers.ScanItem.valid recB,
        Handlers.ScanItem.valid recA]]) "Tokyo" 0 100 ∧
    ([recA, recB] : List WeatherRecord).Perm [recB, recA] ∧
    recA.Timestamp = recB.Timestamp ∧ recA ≠ recB := by
  exact ⟨by decide, by decide, rfl, by decide⟩

/-- C7 as amended: for every scan outcome `GetWeatherHistory` returns the decoded
records sorted ascending by timestamp, a sorted permutation of the scanned multiset —
with no restriction on the timestamps; and whenever no two scanned records share a
timestamp string, the output is moreover the unique ascending sequence, hence the
same for any two scans that deliver that multiset in any order and page partition. -/
theorem C7_sorted_unique (city : String) (s e : Int) :
    (∀ pages : List (List Handlers.ScanItem),
      ∃ out : List WeatherRecord,
        Handlers.GetWeatherHistory (fun _ _ _ => Except.ok pages) city s e = Except.ok out ∧
        out.Sorted Handlers.tsLE ∧ out.Perm (Handlers.collectPages pages)) ∧
    (∀ pages1 pages2 : List (List Handlers.ScanItem),
      (Handlers.collectPages pages1).Perm (Handlers.collectPages pages2) →
      ((Handlers.collectPages pages1).map WeatherRecord.Timestamp).Nodup →
      ∃ out : List WeatherRecord,
        Handlers.GetWeatherHistory (fun _ _ _ => Except.ok pages1) city s e = Except.ok out ∧
        Handlers.GetWeatherHistory (fun _ _ _ => Except.ok pages2) city s e = Except.ok out ∧
        out.Sorted Handlers.tsLE ∧ out.Perm (Handlers.collectPages pages1)) := by
  constructor
  · intro pages
    exact ⟨List.insertionSort Handlers.tsLE (Handlers.collectPages pages), rfl,
      List.sorted_insertionSort _ _, List.perm_insertionSort _ _⟩
  · intro pages1 pages2 hperm hnodup
    refine ⟨List.insertionSort Handlers.tsLE (Handlers.collectPages pages1), rfl, ?_,
      List.sorted_insertionSort _ _, List.perm_insertionSort _ _⟩
    have heq : List.insertionSort Handlers.tsLE (Handlers.collectPages pages2) =
        List.insertionSort Handlers.tsLE (Handlers.collectPages pages1) := by
      apply sorted_nodup_timestamps_eq
      · exact ((List.perm_insertionSort _ _).trans hperm.symm).trans
          (List.perm_insertionSort _ _).symm
      · exact List.sorted_insertionSort _ _
      · exact List.sorted_insertionSort _ _
      · have h2 : ((Handlers.collectPages pages2).map WeatherRecord.Timestamp).Nodup :=
          ((hperm.map _).nodup_iff).mp hnodup
        exact (((List.perm_insertionSort Handlers.tsLE _).map _).nodup_iff).mpr h2
    simp only [Handlers.GetWeatherHistory, heq]

/-- C7 witness: two scans delivering the records at 00:00 and 01:00 in opposite
orders and different page partitions produce the same sorted output. -/
theorem C7_sorted_unique_witness :
    ((Handlers.collectPages [[Handlers.ScanItem.valid recA, Handlers.ScanItem.valid recC]]).Perm
        (Handlers.collectPages [[Handlers.ScanItem.valid recC], [Handlers.ScanItem.valid recA]]) ∧
      ((Handlers.collectPages [[Handlers.ScanItem.valid recA,
        Handlers.ScanItem.valid recC]]).map WeatherRecord.Timestamp).Nodup) ∧
    ∃ out : List WeatherRecord,
      Handlers.GetWeatherHistory
          (fun _ _ _ => Except.ok [[Handlers.ScanItem.valid recA,
            Handlers.ScanItem.valid recC]]) "Tokyo" 0 100 = Except.ok out ∧
      Handlers.GetWeatherHistory
          (fun _ _ _ => Except.ok [[Handlers.ScanItem.valid recC],
            [Handlers.ScanItem.valid recA]]) "Tokyo" 0 100 = Except.ok out ∧
      out.Sorted Handlers.tsLE ∧
      out.Perm (Handlers.collectPages [[Handlers.ScanItem.valid recA,
        Handlers.ScanItem.valid recC]]) :=
  ⟨⟨by decide, by decide⟩,
    (C7_sorted_unique "Tokyo" 0 100).2
      [[Handlers.ScanItem.valid recA, Handlers.ScanItem.valid recC]]
      [[Handlers.ScanItem.valid recC], [Handlers.ScanItem.valid recA]]
      (by decide) (by decide)⟩

/-- C8: when the scan succeeds, `GetWeatherHistory` returns — without error — exactly
the items that deserialize as weather records, skipping malformed ones; in particular
a scan page holding one malformed and two valid items yields exactly the two valid
records. -/
theorem C8_lenient_decode :
    (∀ (pages : List (List Handlers.ScanItem)) (city : String) (s e : Int),
      ∃ out : List WeatherRecord,
        Handlers.GetWeatherHistory (fun _ _ _ => Except.ok pages) city s e = Except.ok out ∧
        out.Perm (pages.flatten.filterMap Handlers.decodeItem)) ∧
    Handlers.GetWeatherHistory
        (fun _ _ _ => Except.ok [[Handlers.ScanItem.malformed, Handlers.ScanItem.valid recA,
          Handlers.ScanItem.valid recC]]) "Tokyo" 0 100 =
      Except.ok [recA, recC] := by
  constructor
  · intro pages city s e
    refine ⟨List.insertionSort Handlers.tsLE (Handlers.collectPages pages), rfl, ?_⟩
    simpa only [collectPages_eq] using
      List.perm_insertionSort Handlers.tsLE (Handlers.collectPages pages)
  · decide

/-- C9: the collector commits the table-store write before attempting the blob-store
write; when the blob write fails the response is a 500 carrying the failing step's
error message and the already-committed table write is not rolled back; on full
success the response is a 200 carrying city, temperature, description, timestamp and
record id, with the two writes committed in table-then-blob order. -/
theorem C9_write_order_partial_failure (resp : WeatherResponse) (now : Int) (e : String)
    (hw : resp.Weather ≠ []) :
    (Collector.HandleRequest ⟨Except.ok resp, fun _ => none, fun _ => some e⟩ now =
      some (⟨500, "Failed to store to S3: " ++ e, none⟩,
        [Collector.Effect.dynamoPut (Services.ConvertToWeatherRecord resp now)])) ∧
    (Collector.HandleRequest ⟨Except.ok resp, fun _ => none, fun _ => none⟩ now =
      some (⟨200, "Weather data processed successfully",
          some ⟨(Services.ConvertToWeatherRecord resp now).CityName,
            (Services.ConvertToWeatherRecord resp now).Temperature,
            (Services.ConvertToWeatherRecord resp now).Description,
            (Services.ConvertToWeatherRecord resp now).Timestamp,
            (Services.ConvertToWeatherRecord resp now).ID⟩⟩,
        [Collector.Effect.dynamoPut (Services.ConvertToWeatherRecord resp now),
          Collector.Effect.s3Put (Services.ConvertToS3Data resp
            (Services.ConvertToWeatherRecord resp now))])) := by
  obtain ⟨w, ws, hcons⟩ := List.exists_cons_of_ne_nil hw
  constructor <;> simp [Collector.HandleRequest, hcons]

/-- C9 witness: the partial-failure clause evaluated on the fixed Tokyo reading with
a failing blob write. -/
theorem C9_write_order_witness :
    tokyoResponse.Weather ≠ [] ∧
    Collector.HandleRequest ⟨Except.ok tokyoResponse, fun _ => none, fun _ => some "boom"⟩
        1700000000 =
      some (⟨500, "Failed to store to S3: " ++ "boom", none⟩,
        [Collector.Effect.dynamoPut
          (Services.ConvertToWeatherRecord tokyoResponse 1700000000)]) :=
  ⟨by decide,
    (C9_write_order_partial_failure tokyoResponse 1700000000 "boom" (by decide)).1⟩

/-- C10: a GET request with an API key and a valid period against a store whose scan
succeeds and matches zero records is answered with status 200 and `count = 0`: an
empty result window is not treated as an error. -/
theorem C10_empty_window_ok (cfg : String) (now : Int) (hdrs qs : List (String × String))
    (hk : ¬(HistoryApi.mapGet hdrs "X-API-Key" = "" ∧ HistoryApi.mapGet hdrs "x-api-key" = ""))
    (hv : isValidPeriod (if HistoryApi.mapGet qs "period" = "" then "6h"
      else HistoryApi.mapGet qs "period") = true) :
    ∃ resp : HistoryApi.WeatherHistoryResponse,
      HistoryApi.HandleRequest cfg (fun _ _ _ => Except.ok []) now ⟨"GET", hdrs, qs⟩ =
        ⟨200, HistoryApi.Body.jsonBody resp⟩ ∧ resp.count = 0 ∧ resp.data = [] := by
  obtain ⟨hours, _, _, heq⟩ := handleRequest_valid_period cfg _ now hdrs qs hk hv
  rw [heq, queryAndRespond_empty]
  exact ⟨_, rfl, rfl, rfl⟩

/-- C10 witness: a keyed GET request with the default period against an empty store
returns 200 with zero records. -/
theorem C10_empty_window_witness :
    (¬(HistoryApi.mapGet [("X-API-Key", "k")] "X-API-Key" = "" ∧
        HistoryApi.mapGet [("X-API-Key", "k")] "x-api-key" = "")) ∧
    ∃ resp : HistoryApi.WeatherHistoryResponse,
      HistoryApi.HandleRequest "Tokyo" (fun _ _ _ => Except.ok []) 1700000000
          ⟨"GET", [("X-API-Key", "k")], []⟩ =
        ⟨200, HistoryApi.Body.jsonBody resp⟩ ∧ resp.count = 0 ∧ resp.data = [] :=
  ⟨by decide, C10_empty_window_ok "Tokyo" 1700000000 [("X-API-Key", "k")] []
    (by decide) (by decide)⟩

end WeatherSys
